import Mathlib

/-!
Verification development for `backup_to_s3.py`, a single-file incremental
backup script.  The script reads a last-run marker from a log file, lists
files of a local directory tree modified after that time, zips them, uploads
the zip to S3, deletes local files older than a retention window and rewrites
the marker.

The embedding has two layers:

* a pipeline layer where a `datetime` value is an integer count of
  microseconds (Python `datetime` arithmetic on naive values is exact
  absolute-time arithmetic, and `timedelta(days = n)` is `n * 86400e6`
  microseconds), which is what the selection, pruning and control-flow
  claims need;
* a calendar/string layer (`namespace Iso`) modelling
  `datetime.isoformat` / `datetime.fromisoformat` on broken-down date-time
  records, which is what the marker round-trip claim needs.

The successive `datetime.now()` calls inside one run of `main` are modelled
as a single instant `now`; none of the verified claims compares two of those
instants against each other.
-/

namespace BackupToS3

/-- `RETENTION_DAYS = 15` (line 15 of the script). -/
def RETENTION_DAYS : Int := 15

/-- `timedelta(days = n)` measured in microseconds, the resolution of
Python `datetime`. -/
def timedelta_days (n : Int) : Int := n * 86400000000

/-- A regular file of the `LOCAL_DIR` tree as `os.walk` reaches it:
its path relative to `LOCAL_DIR` (the full path is
`os.path.join(LOCAL_DIR, relPath)`, and `os.path.relpath(full, LOCAL_DIR)`
recovers `relPath`) and its modification time `os.path.getmtime` converted
by `datetime.fromtimestamp`. -/
structure FSFile where
  relPath : List String
  mtime : Int
deriving DecidableEq

/-- `get_last_run_time` (lines 17-24), at the pipeline layer: the marker
file either holds a time or does not exist, and a missing marker defaults
to `datetime.now() - timedelta(days=30)`. -/
def get_last_run_time (logContent : Option Int) (now : Int) : Int :=
  match logContent with
  | some t => t
  | none => now - timedelta_days 30

/-- `get_new_files` (lines 33-43): the files of the tree whose modification
time is strictly greater than `last_run_time`, in `os.walk` order. -/
def get_new_files (files : List FSFile) (last_run_time : Int) : List FSFile :=
  files.filter (fun f => decide (last_run_time < f.mtime))

/-- The exceptions the script can meet. -/
inductive PyExc
  | attributeError
  | fileNotFoundError
  | noCredentialsError
  | otherError
deriving DecidableEq

/-- A zip archive, abstracted to the list of its entry names (the claims
under verification speak about entry names, not entry bytes). -/
abbrev ZipArchive := List (List String)

/-- `create_zip` (lines 45-52) as written: its first statement evaluates
`shutil.ZipFile(zip_file_path, 'w')`, and the `shutil` module has no
attribute `ZipFile` (the `zipfile` module does; `zipfile` is never
imported), so the call raises `AttributeError` before any file is added,
whatever the file list is. -/
def create_zip (file_list : List FSFile) : Except PyExc ZipArchive :=
  .error .attributeError

/-- Counterfactual comparison model, not the program in `src`: the body
`create_zip` was evidently meant to have, with `zipfile.ZipFile` in place
of `shutil.ZipFile` — one entry per listed file, named
`os.path.relpath(file, LOCAL_DIR)`.  The program as written raises
instead (`create_zip` above). -/
def create_zip_fixed (file_list : List FSFile) : ZipArchive :=
  file_list.map (fun f => f.relPath)

/-- The possible outcomes of the `s3_client.upload_file` call inside
`upload_to_s3`: it returns, or it raises one of the exceptions the script
distinguishes (`except Exception` covers every remaining exception). -/
inductive UploadOutcome
  | ok
  | raiseFileNotFound
  | raiseNoCredentials
  | raiseOther
deriving DecidableEq

/-- The message `upload_to_s3` prints, one per `try`/`except` arm. -/
inductive Report
  | uploadedMsg
  | fileNotFoundMsg
  | noCredentialsMsg
  | uploadErrorMsg
deriving DecidableEq

/-- What a call to `upload_to_s3` did: the objects that reached the bucket,
the message printed, and the exception the call let escape to its caller. -/
structure UploadResult where
  sentObjects : List ZipArchive
  report : Report
  raised : Option PyExc
deriving DecidableEq

/-- `upload_to_s3` (lines 54-67): `upload_file` runs inside
`try`/`except FileNotFoundError`/`except NoCredentialsError`/
`except Exception`, and every arm prints and returns normally, so no
outcome lets an exception escape.  (The `boto3.client` construction on
line 58 is modelled as returning normally.) -/
def upload_to_s3 (archive : ZipArchive) (outcome : UploadOutcome) : UploadResult :=
  match outcome with
  | .ok => { sentObjects := [archive], report := .uploadedMsg, raised := none }
  | .raiseFileNotFound => { sentObjects := [], report := .fileNotFoundMsg, raised := none }
  | .raiseNoCredentials => { sentObjects := [], report := .noCredentialsMsg, raised := none }
  | .raiseOther => { sentObjects := [], report := .uploadErrorMsg, raised := none }

/-- The outcome of `delete_old_files` (lines 69-80) on a tree: which files
stay and which are removed.  A file is removed exactly when its
modification time is strictly below `now - timedelta(days=retention_days)`. -/
structure PruneResult where
  kept : List FSFile
  deleted : List FSFile
deriving DecidableEq

/-- `delete_old_files` (lines 69-80). -/
def delete_old_files (files : List FSFile) (now : Int) (retention_days : Int) : PruneResult :=
  let cutoff_time := now - timedelta_days retention_days
  { kept := files.filter (fun f => !decide (f.mtime < cutoff_time))
    deleted := files.filter (fun f => decide (f.mtime < cutoff_time)) }

/-- The named steps of `main`, for order-of-execution statements. -/
inductive Step
  | readMarker
  | enumerate
  | archive
  | upload
  | prune
  | updateMarker
deriving DecidableEq

/-- The world `main` starts from: the `LOCAL_DIR` tree, the marker file
(`none` when `LOG_FILE` does not exist), and whether `BACKUP_DIR` exists. -/
structure SysState where
  localFiles : List FSFile
  marker : Option Int
  backupDirExists : Bool
deriving DecidableEq

/-- What a run of `main` did.  `raised` is the exception that aborted the
run (`none` for a completed run); `trace` lists the steps the run entered,
in order.  The zip file itself lives under `BACKUP_DIR`, not under
`LOCAL_DIR`, and is deleted again on line 109, so it never appears in
`localFiles`. -/
structure RunResult where
  localFiles : List FSFile
  marker : Option Int
  sentObjects : List ZipArchive
  zipCreated : Option ZipArchive
  madeBackupDir : Bool
  raised : Option PyExc
  trace : List Step
deriving DecidableEq

/-- `main` (lines 82-118), parameterised by the archiving function so that
the script as written (`create_zip`, which raises) and the script with the
`shutil.ZipFile` slip read as intended (`create_zip_fixed`) share one
transcription.  Steps: read marker (84), enumerate (88), else-branch:
`makedirs` if needed (93-94), zip (100), upload (105), local zip removal
(109); then always prune (113) and rewrite the marker with `now` (116) —
unless an uncaught exception aborted the run. -/
def main_run (zipper : List FSFile → Except PyExc ZipArchive)
    (st : SysState) (now : Int) (outcome : UploadOutcome) : RunResult :=
  let last_run_time := get_last_run_time st.marker now
  let new_files := get_new_files st.localFiles last_run_time
  if new_files.isEmpty then
    let pr := delete_old_files st.localFiles now RETENTION_DAYS
    { localFiles := pr.kept
      marker := some now
      sentObjects := []
      zipCreated := none
      madeBackupDir := false
      raised := none
      trace := [.readMarker, .enumerate, .prune, .updateMarker] }
  else
    let made := !st.backupDirExists
    match zipper new_files with
    | .error e =>
      { localFiles := st.localFiles
        marker := st.marker
        sentObjects := []
        zipCreated := none
        madeBackupDir := made
        raised := some e
        trace := [.readMarker, .enumerate, .archive] }
    | .ok archive =>
      let ur := upload_to_s3 archive outcome
      let pr := delete_old_files st.localFiles now RETENTION_DAYS
      { localFiles := pr.kept
        marker := some now
        sentObjects := ur.sentObjects
        zipCreated := some archive
        madeBackupDir := made
        raised := ur.raised
        trace := [.readMarker, .enumerate, .archive, .upload, .prune, .updateMarker] }

/-- `main` exactly as the script runs it (with `create_zip` raising
`AttributeError` whenever there is something to archive). -/
def main (st : SysState) (now : Int) (outcome : UploadOutcome) : RunResult :=
  main_run create_zip st now outcome

/-- Counterfactual comparison model, not the program in `src`: `main` with
the one-token `shutil.ZipFile` → `zipfile.ZipFile` slip corrected,
everything else as written.  No claim is settled on it; it appears only as
an additional conjunct of the step-ordering theorem. -/
def main_fixed (st : SysState) (now : Int) (outcome : UploadOutcome) : RunResult :=
  main_run (fun fl => .ok (create_zip_fixed fl)) st now outcome

/-- The order `main`'s step numbers give its steps. -/
def step_order : List Step :=
  [.readMarker, .enumerate, .archive, .upload, .prune, .updateMarker]

namespace Iso

/-- A naive Python `datetime.datetime` value, broken down into its
fields. -/
structure PyDateTime where
  year : Nat
  month : Nat
  day : Nat
  hour : Nat
  minute : Nat
  second : Nat
  microsecond : Nat
deriving DecidableEq

/-- The Gregorian leap-year rule Python's `datetime` uses. -/
def isLeapYear (y : Nat) : Bool :=
  y % 4 == 0 && (y % 100 != 0 || y % 400 == 0)

/-- The number of days of month `m` of year `y`. -/
def daysInMonth (y m : Nat) : Nat :=
  if m == 2 then (if isLeapYear y then 29 else 28)
  else if m == 4 || m == 6 || m == 9 || m == 11 then 30
  else 31

/-- The range checks the `datetime` constructor enforces: year within
`MINYEAR..MAXYEAR`, month within the year, day within the month, and the
time fields within their ranges. -/
def validDateTime (d : PyDateTime) : Prop :=
  1 ≤ d.year ∧ d.year ≤ 9999 ∧ 1 ≤ d.month ∧ d.month ≤ 12 ∧ 1 ≤ d.day
    ∧ d.day ≤ daysInMonth d.year d.month ∧ d.hour ≤ 23 ∧ d.minute ≤ 59
    ∧ d.second ≤ 59 ∧ d.microsecond ≤ 999999

instance (d : PyDateTime) : Decidable (validDateTime d) := by
  unfold validDateTime; infer_instance

/-- The numeric value of a decimal digit character. -/
def digitVal (c : Char) : Nat := c.toNat - 48

/-- The last `w` decimal digits of `n`, most significant first and
zero-padded to width `w`: how `isoformat` renders each of its fields
(`%04d` for the year, `%02d` for the other date-time fields, `%06d` for
the microseconds). -/
def padDigits : Nat → Nat → List Char
  | 0, _ => []
  | w + 1, n => padDigits w (n / 10) ++ [Nat.digitChar (n % 10)]

/-- Read exactly `w` decimal digits off the front of `l`, returning their
value and the remainder. -/
def readFixed (w : Nat) (l : List Char) : Option (Nat × List Char) :=
  let pre := l.take w
  if pre.length == w && pre.all Char.isDigit then
    some (pre.foldl (fun a c => 10 * a + digitVal c) 0, l.drop w)
  else none

/-- Demand the character `c` at the front of the input. -/
def expectChar (c : Char) : List Char → Option (List Char)
  | [] => none
  | x :: rest => if x == c then some rest else none

/-- The date-time separator position: `fromisoformat` accepts any single
character there (`isoformat` emits `T`). -/
def expectSep : List Char → Option (List Char)
  | [] => none
  | _ :: rest => some rest

/-- The optional fractional-seconds tail: nothing, or a dot followed by
six digits (microseconds) or three digits (milliseconds, scaled by
1000). -/
def readMicro : List Char → Option (Nat × List Char)
  | [] => some (0, [])
  | c :: rest =>
    if c == '.' then
      match readFixed 6 rest with
      | some (v, r) => some (v, r)
      | none =>
        match readFixed 3 rest with
        | some (v, r) => some (v * 1000, r)
        | none => none
    else none

/-- `datetime.isoformat()` with the default `timespec` `auto`:
`YYYY-MM-DDTHH:MM:SS`, with `.ffffff` appended exactly when the
microsecond field is nonzero. -/
def isoformat (d : PyDateTime) : List Char :=
  padDigits 4 d.year ++ ['-'] ++ padDigits 2 d.month ++ ['-'] ++ padDigits 2 d.day
    ++ ['T'] ++ padDigits 2 d.hour ++ [':'] ++ padDigits 2 d.minute ++ [':']
    ++ padDigits 2 d.second
    ++ (if d.microsecond = 0 then [] else ['.'] ++ padDigits 6 d.microsecond)

/-- `datetime.fromisoformat`, positionally, on the date-and-time shapes
`isoformat` emits: four-digit year, dash, two-digit month, dash, two-digit
day, one separator character, two-digit hour, colon, two-digit minute,
colon, two-digit second, optional fraction; no text may remain, and the
parsed fields must pass the `datetime` constructor checks (else the
`ValueError`, modelled as `none`). -/
def fromisoformat (l : List Char) : Option PyDateTime :=
  (readFixed 4 l).bind fun p1 =>
  (expectChar '-' p1.2).bind fun l1 =>
  (readFixed 2 l1).bind fun p2 =>
  (expectChar '-' p2.2).bind fun l2 =>
  (readFixed 2 l2).bind fun p3 =>
  (expectSep p3.2).bind fun l3 =>
  (readFixed 2 l3).bind fun p4 =>
  (expectChar ':' p4.2).bind fun l4 =>
  (readFixed 2 l4).bind fun p5 =>
  (expectChar ':' p5.2).bind fun l5 =>
  (readFixed 2 l5).bind fun p6 =>
  (readMicro p6.2).bind fun p7 =>
  if p7.2.isEmpty then
    let d : PyDateTime :=
      { year := p1.1, month := p2.1, day := p3.1,
        hour := p4.1, minute := p5.1, second := p6.1, microsecond := p7.1 }
    if validDateTime d then some d else none
  else none

/-- Python `str.strip()` with the default argument: whitespace removed
from both ends. -/
def pyStrip (l : List Char) : List Char :=
  ((l.dropWhile Char.isWhitespace).reverse.dropWhile Char.isWhitespace).reverse

/-- `update_last_run_time` (lines 26-31) at the string layer: the text the
run writes to `LOG_FILE` is `datetime.now().isoformat()`. -/
def update_last_run_time (now : PyDateTime) : List Char := isoformat now

/-- `get_last_run_time` (lines 17-24) at the string layer, in the branch
where `LOG_FILE` exists: `datetime.fromisoformat(f.read().strip())`. -/
def get_last_run_time (logContent : List Char) : Option PyDateTime :=
  fromisoformat (pyStrip logContent)

end Iso

/-- C2: a file of the scanned tree is selected for backup iff its
modification time is strictly later than the last recorded run time; files
with older or equal modification times are not selected. -/
theorem get_new_files_spec (files : List FSFile) (last_run_time : Int) (f : FSFile)
    (hf : f ∈ files) :
    f ∈ get_new_files files last_run_time ↔ last_run_time < f.mtime := by
  simp [get_new_files, List.mem_filter, hf]

theorem get_new_files_spec_witness :
    (⟨[], 5⟩ : FSFile) ∈ [(⟨[], 5⟩ : FSFile)]
    ∧ ((⟨[], 5⟩ : FSFile) ∈ get_new_files [⟨[], 5⟩] 3 ↔ (3 : Int) < 5) :=
  ⟨by decide, get_new_files_spec [⟨[], 5⟩] 3 ⟨[], 5⟩ (by decide)⟩

/-- C4: the pruning step deletes a file of the tree iff its modification
time is strictly earlier than the current time minus the 15-day retention
window; every file inside the window is kept. -/
theorem delete_old_files_spec (files : List FSFile) (now : Int) (f : FSFile)
    (hf : f ∈ files) :
    (f ∈ (delete_old_files files now RETENTION_DAYS).deleted
        ↔ f.mtime < now - timedelta_days 15)
    ∧ (f ∈ (delete_old_files files now RETENTION_DAYS).kept
        ↔ ¬ f.mtime < now - timedelta_days 15) := by
  constructor <;> simp [delete_old_files, RETENTION_DAYS, List.mem_filter, hf]

theorem delete_old_files_spec_witness :
    (⟨[], 0⟩ : FSFile) ∈ [(⟨[], 0⟩ : FSFile)]
    ∧ (((⟨[], 0⟩ : FSFile) ∈ (delete_old_files [⟨[], 0⟩] (timedelta_days 20) RETENTION_DAYS).deleted
        ↔ (0 : Int) < timedelta_days 20 - timedelta_days 15)
      ∧ ((⟨[], 0⟩ : FSFile) ∈ (delete_old_files [⟨[], 0⟩] (timedelta_days 20) RETENTION_DAYS).kept
        ↔ ¬ (0 : Int) < timedelta_days 20 - timedelta_days 15)) :=
  ⟨by decide, delete_old_files_spec [⟨[], 0⟩] (timedelta_days 20) ⟨[], 0⟩ (by decide)⟩

/-- C9: with no marker file, the last run time defaults to exactly
`now - timedelta(days=30)`, so a file is selected on such a first run iff
it was modified within the last 30 days; anything at or before that bound
is not backed up. -/
theorem first_run_default_spec (files : List FSFile) (now : Int) (f : FSFile)
    (hf : f ∈ files) :
    get_last_run_time none now = now - timedelta_days 30
    ∧ (f ∈ get_new_files files (get_last_run_time none now)
        ↔ now - timedelta_days 30 < f.mtime)
    ∧ (f.mtime ≤ now - timedelta_days 30
        → f ∉ get_new_files files (get_last_run_time none now)) := by
  refine ⟨rfl, ?_, ?_⟩
  · simp [get_last_run_time, get_new_files, List.mem_filter, hf]
  · intro hold hmem
    simp [get_new_files, List.mem_filter, get_last_run_time] at hmem
    omega

theorem first_run_default_spec_witness :
    (⟨[], 0⟩ : FSFile) ∈ [(⟨[], 0⟩ : FSFile)]
    ∧ (get_last_run_time none (timedelta_days 40) = timedelta_days 40 - timedelta_days 30
      ∧ ((⟨[], 0⟩ : FSFile) ∈ get_new_files [⟨[], 0⟩] (get_last_run_time none (timedelta_days 40))
          ↔ timedelta_days 40 - timedelta_days 30 < (0 : Int))
      ∧ ((0 : Int) ≤ timedelta_days 40 - timedelta_days 30
          → (⟨[], 0⟩ : FSFile) ∉ get_new_files [⟨[], 0⟩] (get_last_run_time none (timedelta_days 40)))) :=
  ⟨by decide, first_run_default_spec [⟨[], 0⟩] (timedelta_days 40) ⟨[], 0⟩ (by decide)⟩

/-- C6: whatever the starting state, the time and the upload outcome, the
steps a run enters form a subsequence of
read-marker, enumerate, archive, upload, prune, update-marker: no step
precedes a step listed before it and each step occurs at most once.  This
holds both for the script as written and with the archive slip fixed. -/
theorem steps_in_order (st : SysState) (now : Int) (outcome : UploadOutcome) :
    (main st now outcome).trace.Sublist step_order
    ∧ (main_fixed st now outcome).trace.Sublist step_order := by
  constructor <;>
    · simp only [main, main_fixed, main_run, create_zip]
      split <;> (dsimp only; decide)

/-- C5: evaluating the script as written: the `try`/`except` arms of
`upload_to_s3` do catch every outcome of the upload call and answer it
with a report, so the call itself never lets an exception escape — but
the upload step is unreachable: a run with a changed file aborts at the
archive step with `AttributeError`, and neither the retention pruning
step nor the marker update executes after it. -/
theorem upload_step_unreachable_eval :
    (∀ archive : ZipArchive, ∀ outcome : UploadOutcome,
      (upload_to_s3 archive outcome).raised = none
        ∧ (upload_to_s3 archive outcome).report =
            (match outcome with
              | .ok => Report.uploadedMsg
              | .raiseFileNotFound => Report.fileNotFoundMsg
              | .raiseNoCredentials => Report.noCredentialsMsg
              | .raiseOther => Report.uploadErrorMsg))
    ∧ (main ⟨[⟨[], 9⟩], some 2, true⟩ 9 .raiseOther).raised = some .attributeError
    ∧ Step.upload ∉ (main ⟨[⟨[], 9⟩], some 2, true⟩ 9 .raiseOther).trace
    ∧ Step.prune ∉ (main ⟨[⟨[], 9⟩], some 2, true⟩ 9 .raiseOther).trace
    ∧ Step.updateMarker ∉ (main ⟨[⟨[], 9⟩], some 2, true⟩ 9 .raiseOther).trace := by
  refine ⟨fun archive outcome => ?_, rfl, ?_, ?_, ?_⟩
  · cases outcome <;> exact ⟨rfl, rfl⟩
  all_goals decide

/-- C1: on the program as written, the run timestamp is persisted to the
marker exactly by the runs that complete, and any run that aborts — in
particular every run that had something to archive and upload, since
`create_zip` raises on a nonempty selection — leaves the previously
recorded timestamp in place.  The upload-failure instance of the claim is
vacuous on this program: no run reaches the upload call, and the only
failure mode, the archive `AttributeError`, preserves the old marker as
the claim predicts. -/
theorem marker_records_success (st : SysState) (now : Int) (outcome : UploadOutcome) :
    ((main st now outcome).raised = none → (main st now outcome).marker = some now)
    ∧ ((main st now outcome).raised ≠ none → (main st now outcome).marker = st.marker) := by
  simp only [main, main_run, create_zip]
  split
  · exact ⟨fun _ => rfl, fun h => absurd rfl h⟩
  · exact ⟨fun h => Option.noConfusion h, fun _ => rfl⟩

theorem marker_records_success_witness :
    (main ⟨[], some 1, false⟩ 5 .ok).marker = some 5
    ∧ (main ⟨[⟨[], 4⟩], some 1, false⟩ 5 .raiseOther).marker = some 1 :=
  ⟨(marker_records_success ⟨[], some 1, false⟩ 5 .ok).1 rfl,
   (marker_records_success ⟨[⟨[], 4⟩], some 1, false⟩ 5 .raiseOther).2 (by decide)⟩

/-- C3: evaluating the script on a tree holding one file modified after
the (defaulted) last run time: `create_zip` raises `AttributeError`
(`shutil` has no `ZipFile`), so the run aborts with no archive created and
nothing uploaded. -/
theorem create_zip_attribute_error :
    create_zip [⟨[], 10⟩] = .error .attributeError
    ∧ (main ⟨[⟨[], 10⟩], none, false⟩ 10 .ok).raised = some .attributeError
    ∧ (main ⟨[⟨[], 10⟩], none, false⟩ 10 .ok).zipCreated = none
    ∧ (main ⟨[⟨[], 10⟩], none, false⟩ 10 .ok).sentObjects = [] :=
  ⟨rfl, rfl, rfl, rfl⟩

/-- C7: evaluating the script on a tree where two files changed since the
recorded run: the run sends zero objects — it aborts at the archive step
with `AttributeError` — where the claim promises a single uploaded
object. -/
theorem upload_not_reached_eval :
    (get_new_files [⟨[], 70⟩, ⟨[], 80⟩] 60).length = 2
    ∧ (main ⟨[⟨[], 70⟩, ⟨[], 80⟩], some 60, true⟩ 90 .ok).sentObjects = []
    ∧ (main ⟨[⟨[], 70⟩, ⟨[], 80⟩], some 60, true⟩ 90 .ok).raised = some .attributeError := by
  decide

/-- C10: when no file was modified since the recorded run, the run creates
no archive, creates no backup directory and uploads nothing, yet it still
prunes the tree and rewrites the marker. -/
theorem no_new_files_run (st : SysState) (now : Int) (outcome : UploadOutcome)
    (h : get_new_files st.localFiles (get_last_run_time st.marker now) = []) :
    (main st now outcome).zipCreated = none
    ∧ (main st now outcome).madeBackupDir = false
    ∧ (main st now outcome).sentObjects = []
    ∧ (main st now outcome).localFiles = (delete_old_files st.localFiles now RETENTION_DAYS).kept
    ∧ (main st now outcome).marker = some now
    ∧ Step.prune ∈ (main st now outcome).trace
    ∧ Step.updateMarker ∈ (main st now outcome).trace := by
  simp [main, main_run, h]

theorem no_new_files_run_witness :
    get_new_files ([] : List FSFile) (get_last_run_time none 0) = []
    ∧ ((main ⟨[], none, false⟩ 0 .ok).zipCreated = none
      ∧ (main ⟨[], none, false⟩ 0 .ok).madeBackupDir = false
      ∧ (main ⟨[], none, false⟩ 0 .ok).sentObjects = []
      ∧ (main ⟨[], none, false⟩ 0 .ok).localFiles
          = (delete_old_files [] 0 RETENTION_DAYS).kept
      ∧ (main ⟨[], none, false⟩ 0 .ok).marker = some 0
      ∧ Step.prune ∈ (main ⟨[], none, false⟩ 0 .ok).trace
      ∧ Step.updateMarker ∈ (main ⟨[], none, false⟩ 0 .ok).trace) :=
  ⟨rfl, no_new_files_run ⟨[], none, false⟩ 0 .ok rfl⟩

namespace Iso

theorem digitChar_isDigit : ∀ k, k < 10 → (Nat.digitChar k).isDigit = true := by decide

theorem digitVal_digitChar : ∀ k, k < 10 → digitVal (Nat.digitChar k) = k := by decide

theorem padDigits_length (w : Nat) : ∀ n, (padDigits w n).length = w := by
  induction w with
  | zero => intro n; rfl
  | succ w ih => intro n; simp [padDigits, ih]

theorem padDigits_all_digit (w : Nat) : ∀ n, (padDigits w n).all Char.isDigit = true := by
  induction w with
  | zero => intro n; rfl
  | succ w ih =>
    intro n
    simp [padDigits, ih]
    exact digitChar_isDigit _ (Nat.mod_lt _ (by norm_num))

theorem mem_padDigits_isDigit {c : Char} {w n : Nat} (h : c ∈ padDigits w n) :
    c.isDigit = true := by
  have hall := padDigits_all_digit w n
  rw [List.all_eq_true] at hall
  exact hall c h

theorem padDigits_foldl (w : Nat) :
    ∀ acc n, n < 10 ^ w →
      (padDigits w n).foldl (fun a c => 10 * a + digitVal c) acc = acc * 10 ^ w + n := by
  induction w with
  | zero =>
    intro acc n h
    have hn : n = 0 := by omega
    simp [padDigits, hn]
  | succ w ih =>
    intro acc n h
    have hdiv : n / 10 < 10 ^ w := by
      rw [Nat.div_lt_iff_lt_mul (by norm_num : (0:ℕ) < 10)]
      calc n < 10 ^ (w + 1) := h
        _ = 10 ^ w * 10 := by rw [pow_succ]
    rw [padDigits, List.foldl_append, ih acc (n / 10) hdiv]
    simp only [List.foldl_cons, List.foldl_nil]
    rw [digitVal_digitChar (n % 10) (Nat.mod_lt _ (by norm_num))]
    have hnm : 10 * (n / 10) + n % 10 = n := Nat.div_add_mod n 10
    calc 10 * (acc * 10 ^ w + n / 10) + n % 10
        = acc * (10 ^ w * 10) + (10 * (n / 10) + n % 10) := by ring
      _ = acc * 10 ^ (w + 1) + n := by rw [hnm, pow_succ]

theorem readFixed_padDigits (w n : Nat) (rest : List Char) (h : n < 10 ^ w) :
    readFixed w (padDigits w n ++ rest) = some (n, rest) := by
  have hlen : (padDigits w n).length = w := padDigits_length w n
  have htake : (padDigits w n ++ rest).take w = padDigits w n := List.take_left' hlen
  have hdrop : (padDigits w n ++ rest).drop w = rest := List.drop_left' hlen
  simp [readFixed, htake, hdrop, hlen, padDigits_all_digit, padDigits_foldl w 0 n h]

theorem readFixed_padDigits_nil (w n : Nat) (h : n < 10 ^ w) :
    readFixed w (padDigits w n) = some (n, []) := by
  have := readFixed_padDigits w n [] h
  simpa using this

theorem expectChar_cons (c : Char) (l : List Char) : expectChar c (c :: l) = some l := by
  simp [expectChar]

theorem expectSep_cons (c : Char) (l : List Char) : expectSep (c :: l) = some l := rfl

theorem daysInMonth_le (y m : Nat) : daysInMonth y m ≤ 31 := by
  unfold daysInMonth
  split
  · split <;> norm_num
  · split <;> norm_num

theorem fromisoformat_isoformat (d : PyDateTime) (h : validDateTime d) :
    fromisoformat (isoformat d) = some d := by
  have hv := h
  obtain ⟨y, mo, dy, hh, mi, ss, us⟩ := d
  unfold validDateTime at h
  dsimp only at h
  obtain ⟨h1, h2, h3, h4, h5, h6, h7, h8, h9, h10⟩ := h
  have hy : y < 10 ^ 4 := by norm_num; omega
  have hmo : mo < 10 ^ 2 := by norm_num; omega
  have hdy : dy < 10 ^ 2 := by
    have := daysInMonth_le y mo
    norm_num; omega
  have hhh : hh < 10 ^ 2 := by norm_num; omega
  have hmi : mi < 10 ^ 2 := by norm_num; omega
  have hss : ss < 10 ^ 2 := by norm_num; omega
  have hus : us < 10 ^ 6 := by norm_num; omega
  by_cases hus0 : us = 0
  · subst hus0
    simp only [isoformat, if_true]
    simp only [fromisoformat, List.append_assoc, List.cons_append, List.nil_append,
      List.singleton_append, List.append_nil,
      Option.some_bind, readFixed_padDigits, readFixed_padDigits_nil,
      hy, hmo, hdy, hhh, hmi, hss,
      expectChar_cons, expectSep_cons, readMicro, List.isEmpty_nil, if_true]
    rw [if_pos hv]
  · simp only [isoformat]
    rw [if_neg hus0]
    simp only [fromisoformat, List.append_assoc, List.cons_append, List.nil_append,
      List.singleton_append, List.append_nil,
      Option.some_bind, readFixed_padDigits, readFixed_padDigits_nil,
      hy, hmo, hdy, hhh, hmi, hss, hus,
      expectChar_cons, expectSep_cons, readMicro, beq_self_eq_true, if_true,
      List.isEmpty_nil]
    rw [if_pos hv]

theorem digitChar_not_ws : ∀ k, k < 10 → (Nat.digitChar k).isWhitespace = false := by decide

theorem mem_padDigits_not_ws (w : Nat) :
    ∀ n c, c ∈ padDigits w n → c.isWhitespace = false := by
  induction w with
  | zero => intro n c hc; cases hc
  | succ w ih =>
    intro n c hc
    rw [padDigits] at hc
    rcases List.mem_append.mp hc with h | h
    · exact ih _ _ h
    · rw [List.mem_singleton] at h
      subst h
      exact digitChar_not_ws _ (Nat.mod_lt _ (by norm_num))

theorem isoformat_not_ws (d : PyDateTime) :
    ∀ c ∈ isoformat d, c.isWhitespace = false := by
  intro c hc
  simp only [isoformat, List.append_assoc, List.mem_append, List.mem_singleton] at hc
  rcases hc with h | h | h | h | h | h | h | h | h | h | h | h
  · exact mem_padDigits_not_ws 4 _ c h
  · subst h; decide
  · exact mem_padDigits_not_ws 2 _ c h
  · subst h; decide
  · exact mem_padDigits_not_ws 2 _ c h
  · subst h; decide
  · exact mem_padDigits_not_ws 2 _ c h
  · subst h; decide
  · exact mem_padDigits_not_ws 2 _ c h
  · subst h; decide
  · exact mem_padDigits_not_ws 2 _ c h
  · by_cases hus : d.microsecond = 0
    · rw [if_pos hus] at h
      cases h
    · rw [if_neg hus] at h
      rcases List.mem_append.mp h with h1 | h1
      · rw [List.mem_singleton] at h1; subst h1; decide
      · exact mem_padDigits_not_ws 6 _ c h1

theorem dropWhile_all_false (p : Char → Bool) (l : List Char)
    (h : ∀ c ∈ l, p c = false) : l.dropWhile p = l := by
  cases l with
  | nil => rfl
  | cons c rest =>
    rw [List.dropWhile_cons, h c (List.mem_cons_self c rest)]
    simp

theorem pyStrip_id (l : List Char) (h : ∀ c ∈ l, c.isWhitespace = false) :
    pyStrip l = l := by
  unfold pyStrip
  rw [dropWhile_all_false _ l h]
  rw [dropWhile_all_false _ l.reverse (fun c hc => h c (List.mem_reverse.mp hc))]
  exact List.reverse_reverse l

end Iso

/-- C8: the marker round-trips — the text `update_last_run_time` writes for
any constructible run datetime is read back by `get_last_run_time`
(strip, then `fromisoformat`) as exactly that datetime. -/
theorem marker_roundtrip (d : Iso.PyDateTime) (h : Iso.validDateTime d) :
    Iso.get_last_run_time (Iso.update_last_run_time d) = some d := by
  unfold Iso.get_last_run_time Iso.update_last_run_time
  rw [Iso.pyStrip_id _ (Iso.isoformat_not_ws d)]
  exact Iso.fromisoformat_isoformat d h

theorem marker_roundtrip_witness :
    Iso.validDateTime ⟨2026, 10, 12, 7, 30, 15, 123456⟩
    ∧ Iso.get_last_run_time (Iso.update_last_run_time ⟨2026, 10, 12, 7, 30, 15, 123456⟩)
        = some ⟨2026, 10, 12, 7, 30, 15, 123456⟩ :=
  ⟨by decide, marker_roundtrip ⟨2026, 10, 12, 7, 30, 15, 123456⟩ (by decide)⟩

end BackupToS3
